import Mathlib

/-!
Shallow embedding of `src/app.py` (a small Flask host-availability monitor).
The embedding covers the probe executor `check_host_health`, the batch
endpoint `api_health_check`, the registry endpoint `api_add_host`, the
stats endpoint `api_stats`, the history query `get_health_history` /
`api_host_history`, and the background monitor loop `background_monitor`.

Modelling choices: Python strings are Lean `String` (inspected through
their character lists), float millisecond values are exact rationals `ℚ`,
SQLite rows are Lean structures and tables are Lean lists, wall-clock
timestamps are integers (seconds), and the network side effect of
`requests.get` is an environment function mapping the requested URL to the
result of the request (a response, a timeout, a connection error, or any
other exception).
-/

/-- Embedding of Python `round(x, 2)`: round to two decimal places,
ties to the even hundredth (banker's rounding), on exact rationals. -/
def pyRound2 (q : ℚ) : ℚ :=
  let y := q * 100
  let f := ⌊y⌋
  let r := y - (f : ℚ)
  let n : ℤ :=
    if r < 1 / 2 then f
    else if 1 / 2 < r then f + 1
    else if f % 2 = 0 then f else f + 1
  (n : ℚ) / 100

/-- Embedding of Python `str.strip` on a character list: drop whitespace
from the front, then from the back. -/
def listStrip (l : List Char) : List Char :=
  ((l.dropWhile Char.isWhitespace).reverse.dropWhile Char.isWhitespace).reverse

/-- Embedding of Python `str.strip` on strings. -/
def pyStrip (s : String) : String := ⟨listStrip s.toList⟩

/-- Embedding of Python `str.startswith` on character lists:
`listStarts s p` is true when `p` is an initial segment of `s`. -/
def listStarts : List Char → List Char → Bool
  | _, [] => true
  | [], _ :: _ => false
  | c :: s, d :: p => c == d && listStarts s p

/-- Embedding of Python `str.startswith` on strings. -/
def strStarts (s p : String) : Bool := listStarts s.toList p.toList

/-- Character-list form of the scheme-defaulting step used by both
`check_host_health` (src/app.py lines 62-63) and `api_add_host`
(lines 230-231): if the address does not start with `http://` or
`https://`, prepend `https://`. -/
def listScheme (l : List Char) : List Char :=
  if listStarts l ("http://".toList) || listStarts l ("https://".toList) then l
  else ("https://".toList) ++ l

/-- String form of the scheme-defaulting step. -/
def ensureScheme (s : String) : String := ⟨listScheme s.toList⟩

/-- Address normalization as performed by `api_add_host`: trim whitespace
(`.strip()`), then default the scheme to `https://` when missing. -/
def normalizeHost (s : String) : String := ensureScheme (pyStrip s)

/-- Model of `urllib.parse.urlparse(s).netloc` for the scheme-qualified
URLs this application builds: the text after `http://` / `https://` up to
the next `/`, `?` or `#`; empty when no such scheme is present (urlparse
also yields an empty netloc when the URL has no `//`). Used only for the
default display name. -/
def netloc (s : String) : String :=
  let l := s.toList
  let rest :=
    if listStarts l ("https://".toList) then l.drop 8
    else if listStarts l ("http://".toList) then l.drop 7
    else []
  ⟨rest.takeWhile (fun c => !(c == '/' || c == '?' || c == '#'))⟩

/-- Possible results of the `requests.get(host, timeout=10,
allow_redirects=True)` call inside `check_host_health`: a response with a
status code and an elapsed wall-clock time in milliseconds, a
`requests.exceptions.Timeout`, a `requests.exceptions.ConnectionError`,
or any other exception with its description. -/
inductive HttpResult where
  | response (statusCode : ℕ) (elapsedMs : ℚ)
  | timeout
  | connectionError
  | otherError (msg : String)
  deriving DecidableEq

/-- Result dictionary returned by `check_host_health`. -/
structure ProbeOutcome where
  host : String
  status : String
  response_time : Option ℚ
  status_code : Option ℕ
  error_message : Option String
  deriving DecidableEq

/-- Embedding of `check_host_health` (src/app.py lines 56-111).  The
network is an environment `net` mapping the requested URL to the result of
`requests.get`.  The scheme-defaulting happens inside the `try` block and
cannot itself raise on a string, so every branch (response, timeout,
connection error, catch-all) sees the scheme-qualified URL. -/
def check_host_health (host : String) (net : String → HttpResult) : ProbeOutcome :=
  let url := ensureScheme host
  match net url with
  | HttpResult.response code elapsed =>
      let status :=
        if code = 200 then
          if elapsed < 500 then ("online")
          else if elapsed < 2000 then ("slow")
          else ("very_slow")
        else ("error")
      { host := url, status := status, response_time := some (pyRound2 elapsed),
        status_code := some code, error_message := none }
  | HttpResult.timeout =>
      { host := url, status := ("timeout"), response_time := none,
        status_code := none, error_message := some ("Request timeout (>10s)") }
  | HttpResult.connectionError =>
      { host := url, status := ("offline"), response_time := none,
        status_code := none, error_message := some ("Connection failed") }
  | HttpResult.otherError e =>
      { host := url, status := ("error"), response_time := none,
        status_code := none, error_message := some e }

/-- One row of the `health_checks` table (src/app.py lines 31-41), with
`timestamp` the `CURRENT_TIMESTAMP` default in seconds. -/
structure HistoryRow where
  host : String
  status : String
  response_time : Option ℚ
  status_code : Option ℕ
  error_message : Option String
  timestamp : ℤ
  deriving DecidableEq

/-- Embedding of `save_health_check` (src/app.py lines 113-131): append
one row to the `health_checks` table. -/
def save_health_check (db : List HistoryRow) (result : ProbeOutcome) (now : ℤ) :
    List HistoryRow :=
  db ++ [{ host := result.host, status := result.status,
           response_time := result.response_time, status_code := result.status_code,
           error_message := result.error_message, timestamp := now }]

/-- One entry of the `/api/health-check` results list: the probe result
dictionary with the host's display name merged in. -/
structure BatchEntry where
  result : ProbeOutcome
  display_name : String
  deriving DecidableEq

/-- Response shape of `/api/health-check`. -/
structure BatchResult where
  results : List BatchEntry
  timestamp : ℤ
  total_hosts : ℕ
  deriving DecidableEq

/-- Embedding of `api_health_check` (src/app.py lines 187-206),
parametrized by the registry snapshot `hosts` (pairs of address and
display name, as produced by `get_monitored_hosts`): probe every host,
save every result to the `health_checks` table, and return all results
together with `total_hosts = len(results)`. -/
def api_health_check (hosts : List (String × String)) (net : String → HttpResult)
    (db : List HistoryRow) (now : ℤ) : BatchResult × List HistoryRow :=
  let results := hosts.map (fun hd =>
    { result := check_host_health hd.1 net, display_name := hd.2 : BatchEntry })
  ({ results := results, timestamp := now, total_hosts := results.length },
   results.foldl (fun d e => save_health_check d e.result now) db)

/-- Response of `/api/add-host`: either a 400 error payload or the
success payload echoing the normalized host and display name. -/
inductive AddHostResult where
  | badRequest (error : String)
  | created (host : String) (display_name : String)
  deriving DecidableEq

/-- Embedding of `api_add_host` (src/app.py lines 220-254).  The
`monitored_hosts.host` column is `TEXT UNIQUE` with SQLite's default
BINARY collation, so the `sqlite3.IntegrityError` duplicate rejection is
modelled as exact string membership in the registry. -/
def api_add_host (registry : List String) (hostArg : Option String)
    (displayArg : Option String) : AddHostResult :=
  let host := pyStrip (hostArg.getD (""))
  if host = ("") then AddHostResult.badRequest ("Host is required")
  else
    let host2 := ensureScheme host
    let display_name := displayArg.getD (netloc host2)
    if host2 ∈ registry then AddHostResult.badRequest ("Host already exists")
    else AddHostResult.created host2 display_name

/-- Rows of the `health_checks` table within the trailing 24-hour window,
as selected by the `WHERE` clause of `api_stats` (src/app.py line 269). -/
def statsWindow (db : List HistoryRow) (now : ℤ) : List HistoryRow :=
  db.filter (fun r => decide (now - 24 * 3600 ≤ r.timestamp))

/-- The `online_count` aggregate of `api_stats`: rows of the window whose
status is `online`. -/
def onlineChecks (db : List HistoryRow) (now : ℤ) : ℕ :=
  ((statsWindow db now).filter (fun r => r.status == ("online"))).length

/-- The response times present in the window (the rows SQLite's `AVG`
aggregates over, skipping NULLs). -/
def respTimes (db : List HistoryRow) (now : ℤ) : List ℚ :=
  (statsWindow db now).filterMap (fun r => r.response_time)

/-- Response shape of `/api/stats`. -/
structure StatsResponse where
  total_checks : ℕ
  uptime_percentage : ℚ
  average_response_time : ℚ
  period : String
  deriving DecidableEq

/-- Embedding of `api_stats` (src/app.py lines 256-287): `COUNT(*)`,
`SUM(status = online)` and `AVG(response_time)` over the trailing
24 hours; `AVG` is NULL on no non-NULL input, and Python turns that NULL
into 0 via `avg_response_time or 0`; the uptime division is guarded by
`if total_checks > 0`; both reported numbers pass through `round(x, 2)`. -/
def api_stats (db : List HistoryRow) (now : ℤ) : StatsResponse :=
  let total := (statsWindow db now).length
  let online := onlineChecks db now
  let resp := respTimes db now
  let avg : Option ℚ := if resp.length = 0 then none else some (resp.sum / (resp.length : ℚ))
  let uptime : ℚ := if 0 < total then ((online : ℚ) / (total : ℚ)) * 100 else 0
  { total_checks := total, uptime_percentage := pyRound2 uptime,
    average_response_time := pyRound2 (avg.getD 0), period := ("24 hours") }

/-- Embedding of `get_health_history` (src/app.py lines 163-179): rows of
the host within the trailing `hours` window, ordered by timestamp
descending, limited to 100 rows, projected to (status, response_time,
timestamp). -/
def get_health_history (db : List HistoryRow) (host : String) (now : ℤ)
    (hours : ℕ) : List (String × Option ℚ × ℤ) :=
  ((((db.filter (fun r =>
        r.host == host && decide (now - (hours : ℤ) * 3600 ≤ r.timestamp))).mergeSort
      (fun a b => decide (b.timestamp ≤ a.timestamp))).take 100).map
    (fun r => (r.status, r.response_time, r.timestamp)))

/-- Response shape of `/api/host-history/<host>`. -/
structure HistoryResponse where
  host : String
  history : List (String × Option ℚ × ℤ)
  period_hours : ℕ
  deriving DecidableEq

/-- Embedding of `api_host_history` (src/app.py lines 208-218): the
`hours` query parameter defaults to 24 when absent. -/
def api_host_history (db : List HistoryRow) (host : String) (now : ℤ)
    (hoursArg : Option ℕ) : HistoryResponse :=
  let hours := hoursArg.getD 24
  { host := host, history := get_health_history db host now hours,
    period_hours := hours }

/-- Environment of one cycle of `background_monitor`: the registry
snapshot call (`get_monitored_hosts`, which may raise), the network, and
the per-result database append (`save_health_check`, which may raise). -/
structure CycleEnv where
  snapshot : Except String (List (String × String))
  net : String → HttpResult
  save : ProbeOutcome → Except String Unit

/-- The probe-and-save loop inside one `background_monitor` cycle; a
raised save error aborts the rest of the cycle body. -/
def runChecks (env : CycleEnv) : List (String × String) → Except String Unit
  | [] => Except.ok ()
  | hd :: rest =>
      match env.save (check_host_health hd.1 env.net) with
      | Except.error e => Except.error e
      | Except.ok _ => runChecks env rest

/-- Result of the `try` body of one `background_monitor` cycle
(src/app.py lines 293-300). -/
def cycleResult (env : CycleEnv) : Except String Unit :=
  match env.snapshot with
  | Except.error e => Except.error e
  | Except.ok hosts => runChecks env hosts

/-- Seconds slept after one `background_monitor` cycle (src/app.py lines
292-303): 300 after a successful cycle, 60 after a cycle whose body
raised (the `except Exception` backoff). -/
def background_cycle (env : CycleEnv) : ℕ :=
  match cycleResult env with
  | Except.ok _ => 300
  | Except.error _ => 60

/-- Virtual elapsed sleeping time of the `while True` monitor loop after
`n` completed cycles, for a sequence of cycle environments. -/
def monitorElapsed (envs : ℕ → CycleEnv) : ℕ → ℕ
  | 0 => 0
  | n + 1 => monitorElapsed envs n + background_cycle (envs n)

/-- The closed enumeration of health states of the spec. -/
def healthStates : List String :=
  ["online", "slow", "very_slow", "error", "timeout", "offline"]

/-- Status appropriate for each failure mode of the probe, following the
spec's classification contract: a received response is classified into
one of the four response states, a timeout maps to `timeout`, a
connection failure to `offline`, and any other exception to `error`. -/
def appropriateStatus : HttpResult → String → Prop
  | HttpResult.response _ _, s => s = "online" ∨ s = "slow" ∨ s = "very_slow" ∨ s = "error"
  | HttpResult.timeout, s => s = "timeout"
  | HttpResult.connectionError, s => s = "offline"
  | HttpResult.otherError _, s => s = "error"

/-- Exactly one of the status code and the error detail is present in a
probe outcome. -/
def carriesExactlyOne (o : ProbeOutcome) : Prop :=
  (o.status_code.isSome = true ∧ o.error_message = none) ∨
  (o.status_code = none ∧ o.error_message.isSome = true)

/-- Concrete `health_checks` table used to evaluate the stats aggregation
at a window with one `online` row out of three. -/
def c6db : List HistoryRow :=
  [{ host := ("a"), status := ("online"), response_time := some 100,
     status_code := some 200, error_message := none, timestamp := 0 },
   { host := ("a"), status := ("error"), response_time := some 100,
     status_code := some 500, error_message := none, timestamp := 0 },
   { host := ("a"), status := ("error"), response_time := some 100,
     status_code := some 500, error_message := none, timestamp := 0 }]

/-- Concrete cycle environment whose registry snapshot succeeds with an
empty host list. -/
def idleCycleEnv : CycleEnv :=
  { snapshot := Except.ok [], net := fun _ => HttpResult.timeout,
    save := fun _ => Except.ok () }

/-- Concrete cycle environment whose registry snapshot call raises. -/
def failingCycleEnv : CycleEnv :=
  { snapshot := Except.error ("db locked"), net := fun _ => HttpResult.timeout,
    save := fun _ => Except.ok () }

/-! ## Auxiliary lemmas about whitespace stripping and scheme handling -/

theorem dropWhile_head_false {α : Type} {p : α → Bool} :
    ∀ {l : List α} {c : α} {r : List α}, List.dropWhile p l = c :: r → p c = false := by
  intro l
  induction l with
  | nil => intro c r h; simp [List.dropWhile] at h
  | cons x xs ih =>
      intro c r h
      rw [List.dropWhile_cons] at h
      by_cases hx : p x = true
      · rw [if_pos hx] at h; exact ih h
      · rw [if_neg hx] at h
        cases h
        simpa using hx

theorem listStrip_head {l : List Char} {c : Char} {r : List Char}
    (h : listStrip l = c :: r) : Char.isWhitespace c = false := by
  obtain ⟨u, hu⟩ :=
    List.dropWhile_suffix (l := (l.dropWhile Char.isWhitespace).reverse) Char.isWhitespace
  have hx : l.dropWhile Char.isWhitespace = c :: (r ++ u.reverse) := by
    conv_lhs => rw [← List.reverse_reverse (l.dropWhile Char.isWhitespace), ← hu]
    rw [List.reverse_append]
    have hd : ((l.dropWhile Char.isWhitespace).reverse.dropWhile Char.isWhitespace).reverse
        = c :: r := h
    rw [hd, List.cons_append]
  exact dropWhile_head_false hx

theorem listStrip_rev_head {l : List Char} {c : Char} {r : List Char}
    (h : (listStrip l).reverse = c :: r) : Char.isWhitespace c = false := by
  apply dropWhile_head_false (p := Char.isWhitespace)
    (l := (l.dropWhile Char.isWhitespace).reverse)
  rw [← h]
  show _ = (((l.dropWhile Char.isWhitespace).reverse.dropWhile Char.isWhitespace).reverse).reverse
  rw [List.reverse_reverse]

theorem listStrip_eq_self {m : List Char}
    (h1 : ∀ c r, m = c :: r → Char.isWhitespace c = false)
    (h2 : ∀ c r, m.reverse = c :: r → Char.isWhitespace c = false) :
    listStrip m = m := by
  have e1 : m.dropWhile Char.isWhitespace = m := by
    cases hm : m with
    | nil => rfl
    | cons c r =>
        rw [List.dropWhile_cons, if_neg]
        rw [h1 c r hm]
        simp
  show ((m.dropWhile Char.isWhitespace).reverse.dropWhile Char.isWhitespace).reverse = m
  rw [e1]
  have e2 : m.reverse.dropWhile Char.isWhitespace = m.reverse := by
    cases hm : m.reverse with
    | nil => rfl
    | cons c r =>
        rw [List.dropWhile_cons, if_neg]
        rw [h2 c r hm]
        simp
  rw [e2, List.reverse_reverse]

theorem listStrip_idem (l : List Char) : listStrip (listStrip l) = listStrip l :=
  listStrip_eq_self (fun _ _ h => listStrip_head h) (fun _ _ h => listStrip_rev_head h)

theorem listStarts_append (P l : List Char) : listStarts (P ++ l) P = true := by
  induction P with
  | nil => simp [listStarts]
  | cons c P ih => simp [listStarts, ih]

theorem listStrip_scheme_fix (l : List Char) :
    listStrip (("https://".toList) ++ listStrip l) = ("https://".toList) ++ listStrip l := by
  apply listStrip_eq_self
  · intro c r h
    rw [show ("https://".toList) ++ listStrip l
        = 'h' :: (("ttps://".toList) ++ listStrip l) from rfl] at h
    cases h
    decide
  · intro c r h
    rw [List.reverse_append] at h
    cases ht : (listStrip l).reverse with
    | nil =>
        rw [ht, List.nil_append,
          show (("https://".toList).reverse)
            = ('/') :: (('/') :: ((':') :: (('s') :: (('p') :: (('t') :: (('t') ::
                (('h') :: ([] : List Char)))))))) from rfl] at h
        cases h
        decide
    | cons d r2 =>
        rw [ht, List.cons_append] at h
        cases h
        exact listStrip_rev_head ht

theorem listNormalize_idem (l : List Char) :
    listScheme (listStrip (listScheme (listStrip l))) = listScheme (listStrip l) := by
  by_cases h : (listStarts (listStrip l) (("http://".toList))
      || listStarts (listStrip l) (("https://".toList))) = true
  · have e1 : listScheme (listStrip l) = listStrip l := by
      simp only [listScheme]; rw [if_pos h]
    rw [e1, listStrip_idem, e1]
  · have e1 : listScheme (listStrip l) = ("https://".toList) ++ listStrip l := by
      simp only [listScheme]; rw [if_neg h]
    rw [e1, listStrip_scheme_fix]
    simp only [listScheme]
    rw [if_pos (Bool.or_eq_true _ _ |>.mpr (Or.inr (listStarts_append _ _)))]

theorem ensureScheme_starts (s : String) :
    strStarts (ensureScheme s) ("http://") = true
      ∨ strStarts (ensureScheme s) ("https://") = true := by
  show listStarts (listScheme s.toList) (("http://".toList)) = true
    ∨ listStarts (listScheme s.toList) (("https://".toList)) = true
  simp only [listScheme]
  split
  · rename_i h
    exact (Bool.or_eq_true _ _).mp h
  · exact Or.inr (listStarts_append _ _)

theorem check_host_health_host (host : String) (net : String → HttpResult) :
    (check_host_health host net).host = ensureScheme host := by
  cases hnet : net (ensureScheme host) <;> simp [check_host_health, hnet]

/-! ## Claim theorems about the probe executor -/

/-- Claim C7: address normalization (trim whitespace, then default a
missing `http://`/`https://` scheme to `https://`) is idempotent:
`normalize (normalize x) = normalize x` for every input string. -/
theorem c7_normalize_idem (s : String) :
    normalizeHost (normalizeHost s) = normalizeHost s :=
  congrArg String.mk (listNormalize_idem s.toList)

/-- Claim C1: `check_host_health` is a total function of the host string
and the network behaviour — every failure mode of the request is captured
and converted into a `ProbeOutcome` whose status is the appropriate one of
the closed health-state enumeration (timeout ↦ `timeout`, connection
failure ↦ `offline`, any other exception ↦ `error`, response ↦ one of the
four response-classification states); no exception propagates. -/
theorem c1_probe_absorbs_failures (host : String) (net : String → HttpResult) :
    (check_host_health host net).status ∈ healthStates ∧
    appropriateStatus (net (ensureScheme host)) (check_host_health host net).status := by
  cases hnet : net (ensureScheme host) with
  | response code t =>
      by_cases h200 : code = 200
      · by_cases h5 : t < 500
        · simp [check_host_health, hnet, h200, h5, healthStates, appropriateStatus]
        · by_cases h2k : t < 2000 <;>
            simp [check_host_health, hnet, h200, h5, h2k, healthStates, appropriateStatus]
      · simp [check_host_health, hnet, h200, healthStates, appropriateStatus]
  | timeout => simp [check_host_health, hnet, healthStates, appropriateStatus]
  | connectionError => simp [check_host_health, hnet, healthStates, appropriateStatus]
  | otherError e => simp [check_host_health, hnet, healthStates, appropriateStatus]

/-- Claim C2: classification of a received response.  With status code
200: latency below 500 ms is `online`, latency in [500, 2000) ms is
`slow`, latency at or above 2000 ms is `very_slow`; any non-200 status
code is `error`. -/
theorem c2_classification (host : String) (net : String → HttpResult) (code : ℕ) (t : ℚ)
    (h : net (ensureScheme host) = HttpResult.response code t) :
    (code = 200 → t < 500 → (check_host_health host net).status = ("online")) ∧
    (code = 200 → 500 ≤ t → t < 2000 → (check_host_health host net).status = ("slow")) ∧
    (code = 200 → 2000 ≤ t → (check_host_health host net).status = ("very_slow")) ∧
    (code ≠ 200 → (check_host_health host net).status = ("error")) := by
  refine ⟨?_, ?_, ?_, ?_⟩
  · intro hc hlt
    simp [check_host_health, h, hc, hlt]
  · intro hc hge hlt
    simp [check_host_health, h, hc, not_lt.mpr hge, hlt]
  · intro hc hge
    have h5 : ¬t < 500 := not_lt.mpr (le_trans (by norm_num) hge)
    simp [check_host_health, h, hc, h5, not_lt.mpr hge]
  · intro hc
    simp [check_host_health, h, hc]

/-- Witness for C2 at a concrete fast 200 response. -/
theorem c2_classification_witness :
    (check_host_health ("example.com")
        (fun _ => HttpResult.response 200 100)).status = ("online") :=
  (c2_classification ("example.com") (fun _ => HttpResult.response 200 100) 200 100 rfl).1
    rfl (by norm_num)

/-- Claim C10: in every probe outcome the response time is present
exactly when the status code is present (both are set exactly when an
HTTP response was received, both are `None` in the timeout, offline, and
catch-all branches), and the returned host address carries an explicit
`http://` or `https://` scheme. -/
theorem c10_response_fields (host : String) (net : String → HttpResult) :
    ((check_host_health host net).response_time.isSome
        = (check_host_health host net).status_code.isSome) ∧
    (match net (ensureScheme host) with
     | HttpResult.response _ _ =>
         (check_host_health host net).response_time.isSome = true ∧
         (check_host_health host net).status_code.isSome = true
     | _ =>
         (check_host_health host net).response_time = none ∧
         (check_host_health host net).status_code = none) ∧
    (strStarts (check_host_health host net).host ("http://") = true ∨
     strStarts (check_host_health host net).host ("https://") = true) := by
  refine ⟨?_, ?_, ?_⟩
  · cases hnet : net (ensureScheme host) <;> simp [check_host_health, hnet]
  · cases hnet : net (ensureScheme host) <;> simp [check_host_health, hnet]
  · rw [check_host_health_host]
    exact ensureScheme_starts host

/-- Counterexample to claim C4 as stated: the catch-all exception branch
of `check_host_health` produces an outcome in state `error` that carries
no status code (it carries the exception description instead), so `error`
outcomes do not always carry a status code. -/
theorem c4_error_counterexample :
    (check_host_health ("example.com") (fun _ => HttpResult.otherError ("boom"))).status
        = ("error") ∧
    (check_host_health ("example.com") (fun _ => HttpResult.otherError ("boom"))).status_code
        = none ∧
    (check_host_health ("example.com") (fun _ => HttpResult.otherError ("boom"))).error_message
        = some ("boom") :=
  ⟨rfl, rfl, rfl⟩

/-- Claim C4 (amended): every probe outcome carries exactly one of
status code and error detail; outcomes in states `online`, `slow` and
`very_slow` always carry a status code; outcomes in states `timeout` and
`offline` never carry one; an `error` outcome carries a status code when
it comes from a received non-200 response, while the catch-all exception
branch yields an `error` outcome carrying the error detail instead. -/
theorem c4_field_invariant (host : String) (net : String → HttpResult) :
    carriesExactlyOne (check_host_health host net) ∧
    ((check_host_health host net).status = ("online")
        ∨ (check_host_health host net).status = ("slow")
        ∨ (check_host_health host net).status = ("very_slow")
      → (check_host_health host net).status_code.isSome = true) ∧
    ((check_host_health host net).status = ("timeout")
        ∨ (check_host_health host net).status = ("offline")
      → (check_host_health host net).status_code = none) ∧
    (match net (ensureScheme host) with
     | HttpResult.response _ _ => (check_host_health host net).status_code.isSome = true
     | _ => (check_host_health host net).status_code = none ∧
            (check_host_health host net).error_message.isSome = true) := by
  refine ⟨?_, ?_, ?_, ?_⟩
  · cases hnet : net (ensureScheme host) <;>
      simp [check_host_health, hnet, carriesExactlyOne]
  · intro hs
    cases hnet : net (ensureScheme host) <;>
      simp_all [check_host_health, hnet]
  · intro hs
    cases hnet : net (ensureScheme host) <;>
      simp_all [check_host_health, hnet]
    · rcases hs with hs | hs <;> revert hs <;> split_ifs <;> decide
  · cases hnet : net (ensureScheme host) <;> simp [check_host_health, hnet]

/-- Witness for C4 (amended) at a concrete 200 response. -/
theorem c4_field_invariant_witness :
    carriesExactlyOne (check_host_health ("example.com") (fun _ => HttpResult.response 200 100)) ∧
    (check_host_health ("example.com")
        (fun _ => HttpResult.response 200 100)).status_code.isSome = true :=
  ⟨(c4_field_invariant ("example.com") (fun _ => HttpResult.response 200 100)).1,
   (c4_field_invariant ("example.com") (fun _ => HttpResult.response 200 100)).2.1
     (Or.inl rfl)⟩

/-! ## Claim theorems about the batch runner, registry, stats, history and scheduler -/

/-- Claim C3: for every snapshot of N active hosts, the batch endpoint
returns exactly N entries and `total_hosts = N`, whatever the network
does; a host whose request always times out yields a `timeout` entry
instead of an exception crossing the batch boundary. -/
theorem c3_batch_counts (hosts : List (String × String)) (net : String → HttpResult)
    (db : List HistoryRow) (now : ℤ) :
    (api_health_check hosts net db now).1.results.length = hosts.length ∧
    (api_health_check hosts net db now).1.total_hosts = hosts.length ∧
    (∀ hd ∈ hosts, net (ensureScheme hd.1) = HttpResult.timeout →
      ∃ e ∈ (api_health_check hosts net db now).1.results,
        e.result.status = ("timeout") ∧ e.result.host = ensureScheme hd.1 ∧
        e.display_name = hd.2) := by
  refine ⟨?_, ?_, ?_⟩
  · simp [api_health_check]
  · simp [api_health_check]
  · intro hd hmem hnet
    refine ⟨{ result := check_host_health hd.1 net, display_name := hd.2 }, ?_, ?_, ?_, rfl⟩
    · exact List.mem_map_of_mem _ hmem
    · simp [check_host_health, hnet]
    · exact check_host_health_host hd.1 net

/-- Witness for C3 at a one-host snapshot whose probe always times out. -/
theorem c3_batch_counts_witness :
    (api_health_check [(("example.com"), ("Example"))]
        (fun _ => HttpResult.timeout) [] 0).1.results.length = 1 ∧
    (api_health_check [(("example.com"), ("Example"))]
        (fun _ => HttpResult.timeout) [] 0).1.total_hosts = 1 :=
  ⟨(c3_batch_counts [(("example.com"), ("Example"))] (fun _ => HttpResult.timeout) [] 0).1,
   (c3_batch_counts [(("example.com"), ("Example"))] (fun _ => HttpResult.timeout) [] 0).2.1⟩

/-- Counterexample to claim C5 as stated: with `https://example.com`
registered, adding `HTTPS://Example.com` is not rejected as a duplicate.
Python's `startswith` check is case-sensitive, so the upper-case scheme is
not recognized and the input is stored as
`https://HTTPS://Example.com` (display name `HTTPS:`), a fresh row. -/
theorem c5_case_counterexample :
    api_add_host [("https://example.com")] (some ("HTTPS://Example.com")) none
        ≠ AddHostResult.badRequest ("Host already exists") ∧
    api_add_host [("https://example.com")] (some ("HTTPS://Example.com")) none
        = AddHostResult.created ("https://HTTPS://Example.com") ("HTTPS:") := by
  refine ⟨?_, ?_⟩ <;> decide

/-- Claim C5 (amended): duplicate detection is exact (case-sensitive):
for a non-empty trimmed input, the add-host operation is rejected with the
duplicate error exactly when a host string equal to the normalized input
already exists in the registry. -/
theorem c5_duplicate_exact (registry : List String) (input : String) (d : Option String)
    (h : pyStrip input ≠ ("")) :
    (api_add_host registry (some input) d = AddHostResult.badRequest ("Host already exists"))
      ↔ ensureScheme (pyStrip input) ∈ registry := by
  simp only [api_add_host, Option.getD_some]
  rw [if_neg h]
  by_cases hm : ensureScheme (pyStrip input) ∈ registry
  · rw [if_pos hm]; simp [hm]
  · rw [if_neg hm]; simp [hm]

/-- Witness for C5 (amended): an exact duplicate is rejected. -/
theorem c5_duplicate_exact_witness :
    api_add_host [("https://HTTPS://Example.com")] (some ("HTTPS://Example.com")) none
      = AddHostResult.badRequest ("Host already exists") :=
  (c5_duplicate_exact [("https://HTTPS://Example.com")] ("HTTPS://Example.com") none
    (by decide)).mpr (by decide)

theorem pyRound2_zero : pyRound2 0 = 0 := by norm_num [pyRound2]

/-- Counterexample to claim C6 as stated: with one `online` row out of
three in the window, the reported `uptime_percentage` is the two-decimal
rounding `33.33`, not the exact value `100 * 1 / 3`. -/
theorem c6_rounding_counterexample :
    (api_stats c6db 0).total_checks = 3 ∧
    onlineChecks c6db 0 = 1 ∧
    (api_stats c6db 0).uptime_percentage = 3333 / 100 ∧
    (api_stats c6db 0).uptime_percentage ≠ 100 * 1 / 3 := by
  have h3 : (api_stats c6db 0).uptime_percentage = 3333 / 100 := by
    have h1 : (statsWindow c6db 0).length = 3 := rfl
    have h2 : onlineChecks c6db 0 = 1 := rfl
    simp only [api_stats, h1, h2]
    norm_num [pyRound2]
  exact ⟨rfl, rfl, h3, by rw [h3]; norm_num⟩

/-- Claim C6 (amended): the stats aggregation never faults: on an empty
trailing-24-hour window it reports `total_checks = 0`,
`uptime_percentage = 0` and `average_response_time = 0` (the division is
guarded); on a non-empty window `uptime_percentage` is
`100 * onlineCount / totalCount` rounded to two decimal places, and the
mean response time is taken only over rows that have a response time
(0 when there are none), likewise rounded. -/
theorem c6_stats_guarded (db : List HistoryRow) (now : ℤ) :
    ((statsWindow db now).length = 0 →
        (api_stats db now).total_checks = 0 ∧
        (api_stats db now).uptime_percentage = 0 ∧
        (api_stats db now).average_response_time = 0) ∧
    (0 < (statsWindow db now).length →
        (api_stats db now).uptime_percentage
          = pyRound2 (100 * (onlineChecks db now : ℚ) / ((statsWindow db now).length : ℚ))) ∧
    ((respTimes db now).length = 0 → (api_stats db now).average_response_time = 0) ∧
    (0 < (respTimes db now).length →
        (api_stats db now).average_response_time
          = pyRound2 ((respTimes db now).sum / ((respTimes db now).length : ℚ))) := by
  refine ⟨?_, ?_, ?_, ?_⟩
  · intro h
    have hw : statsWindow db now = [] := List.length_eq_zero.mp h
    have hr : respTimes db now = [] := by
      unfold respTimes
      rw [hw, List.filterMap_nil]
    refine ⟨?_, ?_, ?_⟩
    · simpa [api_stats] using h
    · simp only [api_stats, h]
      norm_num [pyRound2_zero]
    · simp only [api_stats, hr]
      norm_num [pyRound2_zero]
  · intro h
    simp only [api_stats]
    rw [if_pos h]
    exact congrArg pyRound2 (by ring)
  · intro h
    simp only [api_stats]
    rw [if_pos h]
    exact pyRound2_zero
  · intro h
    simp only [api_stats]
    rw [if_neg (Nat.pos_iff_ne_zero.mp h)]
    rfl

/-- Witness for C6 (amended) at the empty table. -/
theorem c6_stats_guarded_witness :
    (api_stats [] 0).total_checks = 0 ∧ (api_stats [] 0).uptime_percentage = 0 ∧
    (api_stats [] 0).average_response_time = 0 :=
  (c6_stats_guarded [] 0).1 rfl

/-- Claim C8: for every host and time window, the history endpoint
returns rows of that host ordered newest-first, at most 100 of them, all
within the last `hours` hours, and the window defaults to 24 hours when
the caller does not pass one. -/
theorem c8_history_query (db : List HistoryRow) (host : String) (now : ℤ)
    (hoursArg : Option ℕ) :
    (api_host_history db host now hoursArg).period_hours = hoursArg.getD 24 ∧
    (api_host_history db host now hoursArg).history.length ≤ 100 ∧
    List.Pairwise (fun a b => b.2.2 ≤ a.2.2)
      (api_host_history db host now hoursArg).history ∧
    (∀ e ∈ (api_host_history db host now hoursArg).history,
      (now - ((hoursArg.getD 24 : ℕ) : ℤ) * 3600 ≤ e.2.2) ∧
      ∃ r ∈ db, r.host = host ∧ e = (r.status, r.response_time, r.timestamp)) := by
  refine ⟨rfl, ?_, ?_, ?_⟩
  · simp only [api_host_history, get_health_history, List.length_map, List.length_take]
    exact min_le_left _ _
  · have hs : List.Pairwise
        (fun a b : HistoryRow => (decide (b.timestamp ≤ a.timestamp)) = true)
        ((db.filter (fun r => r.host == host
            && decide (now - ((hoursArg.getD 24 : ℕ) : ℤ) * 3600 ≤ r.timestamp))).mergeSort
          (fun a b => decide (b.timestamp ≤ a.timestamp))) := by
      apply List.sorted_mergeSort
      · intro a b c hab hbc
        simp only [decide_eq_true_eq] at hab hbc ⊢
        exact le_trans hbc hab
      · intro a b
        rcases le_total b.timestamp a.timestamp with h | h <;>
          simp [h]
    have ht := hs.sublist (List.take_sublist 100 _)
    show List.Pairwise _ (List.map _ _)
    rw [List.pairwise_map]
    exact ht.imp (fun h => by simpa using h)
  · intro e he
    simp only [api_host_history, get_health_history] at he
    obtain ⟨r, hr, rfl⟩ := List.mem_map.mp he
    have hr2 := List.mem_mergeSort.mp (List.mem_of_mem_take hr)
    obtain ⟨hdb, hq⟩ := List.mem_filter.mp hr2
    have hq2 : (r.host == host) = true ∧
        (decide (now - ((hoursArg.getD 24 : ℕ) : ℤ) * 3600 ≤ r.timestamp)) = true := by
      simpa using hq
    obtain ⟨hhost, hts⟩ := hq2
    refine ⟨by simpa using hts, r, hdb, by simpa using hhost, rfl⟩

/-- Witness for C8 at the empty table with the default window. -/
theorem c8_history_query_witness :
    (api_host_history [] ("h") 0 none).period_hours = 24 ∧
    (api_host_history [] ("h") 0 none).history.length ≤ 100 :=
  ⟨(c8_history_query [] ("h") 0 none).1, (c8_history_query [] ("h") 0 none).2.1⟩

/-- Claim C9: the continuous-mode monitor loop never terminates — after
every completed cycle another cycle follows after a finite positive wait —
and the wait is the fixed 1-minute backoff (60 s) when the cycle body
raised, and the fixed 5-minute interval (300 s) when the cycle
succeeded. -/
theorem c9_monitor_loop (envs : ℕ → CycleEnv) (n : ℕ) :
    monitorElapsed envs n < monitorElapsed envs (n + 1) ∧
    (∀ e, cycleResult (envs n) = Except.error e → background_cycle (envs n) = 60) ∧
    (cycleResult (envs n) = Except.ok () → background_cycle (envs n) = 300) := by
  refine ⟨?_, ?_, ?_⟩
  · show monitorElapsed envs n < monitorElapsed envs n + background_cycle (envs n)
    have hpos : 0 < background_cycle (envs n) := by
      unfold background_cycle
      cases cycleResult (envs n) <;> norm_num
    omega
  · intro e he
    unfold background_cycle
    rw [he]
  · intro he
    unfold background_cycle
    rw [he]

/-- Witness for C9: one environment whose cycle succeeds (sleep 300) and
one whose registry snapshot raises (sleep 60). -/
theorem c9_monitor_loop_witness :
    monitorElapsed (fun _ => idleCycleEnv) 0 < monitorElapsed (fun _ => idleCycleEnv) 1 ∧
    background_cycle idleCycleEnv = 300 ∧
    background_cycle failingCycleEnv = 60 :=
  ⟨(c9_monitor_loop (fun _ => idleCycleEnv) 0).1,
   (c9_monitor_loop (fun _ => idleCycleEnv) 0).2.2 rfl,
   (c9_monitor_loop (fun _ => failingCycleEnv) 0).2.1 ("db locked") rfl⟩
